import Mathlib

/-!
Verification of the asynchronous upload engine and the chunked compression
helpers of the barman cloud client.

The compression helpers are embedded directly from
`barman/clients/cloud_compression.py`.  The asynchronous upload engine
(`CloudInterface` in `barman/cloud.py`) is not part of the source tree here,
so its operations are modelled from the specification and exercised against
the concrete scenarios of `tests/test_cloud.py`.
-/

namespace Barman

/-! ## Compression helpers (`barman/clients/cloud_compression.py`) -/

/-- Python renders the value interpolated by `%s`: `None` becomes the string
`"None"`, a string stays itself.  Used for the compression token, which in
Python may be `None`. -/
def pyOptStr : Option String → String
  | none => "None"
  | some s => s

/-- The chunked compressor variants that `get_compressor` can build. -/
inductive ChunkedCompressorKind where
  | snappy
  | zstd
  | lz4
deriving DecidableEq, Repr

/-- Embeds `get_compressor`: dispatch on the compression token; `snappy`,
`zstd` and `lz4` yield a `ChunkedCompressor`, every other token falls
through to `return None`. -/
def get_compressor (compression : Option String) : Option ChunkedCompressorKind :=
  if compression = some "snappy" then some ChunkedCompressorKind.snappy
  else if compression = some "zstd" then some ChunkedCompressorKind.zstd
  else if compression = some "lz4" then some ChunkedCompressorKind.lz4
  else none

/-- The codec branch taken by the whole-buffer helpers. -/
inductive WholeBufferCodec where
  | snappy
  | zstd
  | lz4
  | gzip
  | bzip2
deriving DecidableEq, Repr

/-- Embeds the dispatch of `compress`: each recognized token selects the
codec branch that performs the in-memory compression; any other token
raises `ValueError("Unknown compression type: %s" % compression)` before
any compression work is done. -/
def compress (compression : Option String) : Except String WholeBufferCodec :=
  if compression = some "snappy" then Except.ok WholeBufferCodec.snappy
  else if compression = some "zstd" then Except.ok WholeBufferCodec.zstd
  else if compression = some "lz4" then Except.ok WholeBufferCodec.lz4
  else if compression = some "gzip" then Except.ok WholeBufferCodec.gzip
  else if compression = some "bzip2" then Except.ok WholeBufferCodec.bzip2
  else Except.error ("Unknown compression type: " ++ pyOptStr compression)

/-- Embeds the dispatch of `decompress_to_file`: `snappy` and `zstd` stream
and return early, `lz4`/`gzip`/`bzip2` open a decompressing source file and
copy it, and any other token raises
`ValueError("Unknown compression type: %s" % compression)` before any
decompression work is done. -/
def decompress_to_file (compression : Option String) : Except String WholeBufferCodec :=
  if compression = some "snappy" then Except.ok WholeBufferCodec.snappy
  else if compression = some "zstd" then Except.ok WholeBufferCodec.zstd
  else if compression = some "lz4" then Except.ok WholeBufferCodec.lz4
  else if compression = some "gzip" then Except.ok WholeBufferCodec.gzip
  else if compression = some "bzip2" then Except.ok WholeBufferCodec.bzip2
  else Except.error ("Unknown compression type: " ++ pyOptStr compression)

/-- Embeds `get_streaming_tar_mode`: tokens handled by the chunked path
(`snappy`, `zstd`, `lz4`) and `None` yield the bare mode marker
`"%s|" % mode`; every other token yields `"%s|%s" % (mode, compression)`. -/
def get_streaming_tar_mode (mode : String) (compression : Option String) : String :=
  if compression = some "snappy" ∨ compression = some "zstd" ∨
      compression = some "lz4" ∨ compression = none then
    mode ++ "|"
  else
    mode ++ "|" ++ pyOptStr compression

/-! ## Asynchronous upload engine (modelled from the spec)

`barman/cloud.py` (class `CloudInterface`) is not part of this source tree;
only its tests are.  The definitions below are modelled from the
specification of the worker pool, the channel protocol, the parts ledger
and the error latch, and are checked against the concrete scenarios of
`tests/test_cloud.py`. -/

/-- A part descriptor as held by the ledger: the part number it was
reported with, paired with the opaque provider-defined descriptor. -/
abbrev PartEntry := Nat × String

/-- Modelled from the spec: a `JobResult` for a part job posted on the
result channel — `{key, partNumber, endTime, partDescriptor}`. -/
structure PartResult where
  key : String
  part_number : Nat
  end_time : Nat
  part : String
deriving DecidableEq, Repr

/-- Modelled from the spec: an `UploadJob` is a tagged variant,
`UploadPart{uploadHandle, key, partNumber, bodyPath}` or
`CompleteMultipartUpload{uploadHandle, key, orderedParts}`; `other` stands
for any unrecognized job kind reaching `executeJob` (the tests exercise a
job whose `job_type` is the string `"error"`). -/
inductive UploadJob where
  | upload_part (upload_metadata : String) (key : String) (body : String) (part_number : Nat)
  | complete_multipart_upload (upload_metadata : String) (key : String)
      (parts_metadata : List PartEntry)
  | other (job_type : String)
deriving DecidableEq, Repr

/-- Observable effects of the engine's operations: channel allocations and
worker spawns during startup, checkpoint calls, temp-file writes, job
enqueues, result drains, and the worker-side channel interactions. -/
inductive Action where
  | allocJobChannel
  | allocResultChannel
  | allocErrorsChannel
  | allocDoneChannel
  | spawnWorker (i : Nat)
  | checkpoint
  | writeTempFile (path : String) (content : List Nat)
  | enqueue (job : UploadJob)
  | retrieveResultsCall
  | get
  | execute (job : UploadJob)
  | postError (msg : String)
  | taskDone
  | openFile (path : String)
  | providerUploadPart (upload_metadata : String) (key : String) (part_number : Nat)
  | unlink (path : String)
  | postResult (r : PartResult)
  | providerCompleteMultipartUpload (upload_metadata : String) (key : String)
      (parts : List PartEntry)
  | postDone (key : String) (end_time : Nat)
deriving DecidableEq, Repr

/-- Outcome of the error checkpoint: return normally, or fail the current
call with an upload error carrying the latched message. -/
inductive CheckpointOutcome where
  | ok
  | failed (msg : String)
deriving DecidableEq, Repr

/-- Modelled from the spec: the producer-side state of the coordinator —
the three channels plus the completion channel (unallocated before
`ensureStarted`), the error latch, the parts ledger, the upload statistics
and the worker pool.  `jobs` is the worker count N fixed at
construction. -/
structure EngineState where
  jobs : Nat
  queue : Option (List UploadJob)
  result_queue : Option (List PartResult)
  errors_queue : Option (List String)
  done_queue : Option (List (String × Nat))
  error : Option String
  parts_db : String → List PartEntry
  upload_stats : String → List (Nat × Nat)
  worker_processes : List Nat

/-- Modelled from the spec: a freshly constructed coordinator with `jobs`
workers configured — no channels allocated, no workers spawned, empty
ledger, unset error latch (the tests' `test_uploader_minimal`). -/
def newInterface (jobs : Nat) : EngineState :=
  { jobs := jobs
    queue := none
    result_queue := none
    errors_queue := none
    done_queue := none
    error := none
    parts_db := fun _ => []
    upload_stats := fun _ => []
    worker_processes := [] }

/-- Modelled from the spec: `ensureStarted` — if the job channel already
exists the call is a no-op; otherwise allocate the job channel, the result
channel, the error channel and the completion channel, and spawn exactly
`jobs` workers.  The returned list records the allocations and spawns
performed. -/
def ensure_async (st : EngineState) : EngineState × List Action :=
  match st.queue with
  | some _ => (st, [])
  | none =>
      ({ st with
          queue := some []
          result_queue := some []
          errors_queue := some []
          done_queue := some []
          worker_processes := List.range st.jobs },
        [Action.allocJobChannel, Action.allocResultChannel, Action.allocErrorsChannel,
          Action.allocDoneChannel] ++ (List.range st.jobs).map Action.spawnWorker)

/-- Modelled from the spec: `handleAsyncErrors` — if the latch is already
set, return immediately without reading the error channel; otherwise, if
the error channel holds at least one message, pop exactly one, store it as
the latch value and fail the call with it; if the channel is empty, return
normally. -/
def handle_async_errors (st : EngineState) : EngineState × CheckpointOutcome :=
  match st.error with
  | some _ => (st, CheckpointOutcome.ok)
  | none =>
      match st.errors_queue with
      | none => (st, CheckpointOutcome.ok)
      | some [] => (st, CheckpointOutcome.ok)
      | some (e :: rest) =>
          ({ st with error := some e, errors_queue := some rest }, CheckpointOutcome.failed e)

/-- Insert a part entry into a ledger sequence so that the sequence stays
sorted ascending by part number (the spec allows insert-in-place or a full
re-sort; both give the same sequence for distinct part numbers). -/
def insertPart (e : PartEntry) : List PartEntry → List PartEntry
  | [] => [e]
  | f :: rest => if e.1 ≤ f.1 then e :: f :: rest else f :: insertPart e rest

/-- Modelled from the spec: processing of one drained part result — insert
the part descriptor into `ledger[key]` keeping it sorted ascending by part
number, and record `stats[key].parts[partNumber] = {endTime}`. -/
def drainOne (st : EngineState) (r : PartResult) : EngineState :=
  { st with
      parts_db := fun k =>
        if k = r.key then insertPart (r.part_number, r.part) (st.parts_db k)
        else st.parts_db k
      upload_stats := fun k =>
        if k = r.key then st.upload_stats k ++ [(r.part_number, r.end_time)]
        else st.upload_stats k }

/-- Modelled from the spec: `retrieveResults` — non-blocking drain of every
currently available item on the result channel into the ledger and the
statistics; a no-op when the channel is empty (or not yet allocated). -/
def retrieve_results (st : EngineState) : EngineState :=
  match st.result_queue with
  | none => st
  | some rs => { rs.foldl drainOne st with result_queue := some [] }

/-- Modelled from the spec: `dispatchUploadPart` — ensure the pool is
started, checkpoint, persist the body to a private temporary file, enqueue
an `UploadPart` job referencing the temp file's path (never the raw
bytes), checkpoint again.  If the first checkpoint fails, the call fails
before anything is written or enqueued. -/
def async_upload_part (st : EngineState) (upload_metadata : String) (key : String)
    (body : List Nat) (part_number : Nat) (tmpName : String) :
    EngineState × List Action × CheckpointOutcome :=
  let r1 := ensure_async st
  let r2 := handle_async_errors r1.1
  match r2.2 with
  | CheckpointOutcome.failed e =>
      (r2.1, r1.2 ++ [Action.checkpoint], CheckpointOutcome.failed e)
  | CheckpointOutcome.ok =>
      let job := UploadJob.upload_part upload_metadata key tmpName part_number
      let st3 := { r2.1 with queue := r2.1.queue.map (fun q => q ++ [job]) }
      let r4 := handle_async_errors st3
      (r4.1,
        r1.2 ++ [Action.checkpoint, Action.writeTempFile tmpName body,
          Action.enqueue job, Action.checkpoint],
        r4.2)

/-- Modelled from the spec: `completeMultipartUpload` — ensure the pool is
started, checkpoint, call `retrieveResults` once to pull in any parts not
yet reflected in the ledger, dispatch a `CompleteMultipartUpload` job whose
manifest is exactly the ledger sequence for the key after that drain,
checkpoint again. -/
def async_complete_multipart_upload (st : EngineState) (upload_metadata : String)
    (key : String) : EngineState × List Action × CheckpointOutcome :=
  let r1 := ensure_async st
  let r2 := handle_async_errors r1.1
  match r2.2 with
  | CheckpointOutcome.failed e =>
      (r2.1, r1.2 ++ [Action.checkpoint], CheckpointOutcome.failed e)
  | CheckpointOutcome.ok =>
      let st3 := retrieve_results r2.1
      let job := UploadJob.complete_multipart_upload upload_metadata key (st3.parts_db key)
      let st4 := { st3 with queue := st3.queue.map (fun q => q ++ [job]) }
      let r5 := handle_async_errors st4
      (r5.1,
        r1.2 ++ [Action.checkpoint, Action.retrieveResultsCall,
          Action.enqueue job, Action.checkpoint],
        r5.2)

/-- Modelled from the spec: the worker loop `workerProcessMain` — blocking
receive from the job channel (the input list, `none` being the stop
sentinel); on the sentinel, acknowledge and terminate; on a job, execute it
inside a blanket guard that posts any raised message to the error channel,
then acknowledge and loop regardless of success or failure.  `exec` is the
per-job execution (abstract here, as in the tests, where it is mocked). -/
def worker_process_main (exec : UploadJob → Except String Unit) :
    List (Option UploadJob) → List Action
  | [] => []
  | none :: _ => [Action.get, Action.taskDone]
  | some j :: rest =>
      [Action.get, Action.execute j] ++
        (match exec j with
          | Except.ok _ => []
          | Except.error e => [Action.postError e]) ++
        [Action.taskDone] ++ worker_process_main exec rest

/-- Modelled from the spec: `executeJob` — dispatch by job kind.  For
`UploadPart`: open the temp file, call the provider's `uploadPart`, delete
the temp file, post the part result on the result channel.  For
`CompleteMultipartUpload`: call the provider and post to the completion
channel.  Any other kind raises an invalid-operation failure (second
component `some message`) with no channel write and no provider call.
`provider_part` is the opaque provider call returning the part descriptor,
`now` the end-of-job timestamp. -/
def worker_process_execute_job (provider_part : String → String → Nat → String)
    (now : Nat) (job : UploadJob) : List Action × Option String :=
  match job with
  | UploadJob.upload_part meta key body pn =>
      ([Action.openFile body, Action.providerUploadPart meta key pn, Action.unlink body,
        Action.postResult
          { key := key, part_number := pn, end_time := now, part := provider_part meta key pn }],
        none)
  | UploadJob.complete_multipart_upload meta key parts =>
      ([Action.providerCompleteMultipartUpload meta key parts, Action.postDone key now], none)
  | UploadJob.other t => ([], some ("Unknown job type: " ++ t))

/-- Is this action a worker spawn? -/
def isSpawn : Action → Bool
  | Action.spawnWorker _ => true
  | _ => false

/-- Is this action a channel allocation? -/
def isAlloc : Action → Bool
  | Action.allocJobChannel => true
  | Action.allocResultChannel => true
  | Action.allocErrorsChannel => true
  | Action.allocDoneChannel => true
  | _ => false

/-- Is this action a blocking receive on the job channel? -/
def isGet : Action → Bool
  | Action.get => true
  | _ => false

/-- Is this action a per-item job execution? -/
def isExecuteAct : Action → Bool
  | Action.execute _ => true
  | _ => false

/-- Is this action an acknowledgment on the job channel? -/
def isTaskDone : Action → Bool
  | Action.taskDone => true
  | _ => false

/-- Is this action a call to `retrieveResults`? -/
def isRetrieveCall : Action → Bool
  | Action.retrieveResultsCall => true
  | _ => false

/-- Is this action a write to the result, completion or error channel? -/
def isChannelWrite : Action → Bool
  | Action.postResult _ => true
  | Action.postDone _ _ => true
  | Action.postError _ => true
  | _ => false

/-- Is this action a provider call? -/
def isProviderCall : Action → Bool
  | Action.providerUploadPart _ _ _ => true
  | Action.providerCompleteMultipartUpload _ _ _ => true
  | _ => false

/-- A coordinator whose pool is started (job channel `q` allocated), whose
error latch is unset, whose error channel is empty and whose result channel
holds the pending results `rs` — the configuration in which dispatch
operations proceed past the checkpoint. -/
def startedState (st : EngineState) (q : List UploadJob) (rs : List PartResult) : EngineState :=
  { st with
      queue := some q
      error := none
      errors_queue := some []
      result_queue := some rs }

/-- The out-of-order part results posted on the result channel in the
tests' `test_retrieve_results` scenario: parts 2, 1, 3 of `test/file`
arrive in that order, then part 1 of `test/another_file`. -/
def testResults : List PartResult :=
  [ { key := "test/file", part_number := 2, end_time := 220, part := "becb2f30c11b6a2b5c069f3c8a5b798c" },
    { key := "test/file", part_number := 1, end_time := 120, part := "27960aa8b7b851eb0277f0f3f5d15d68" },
    { key := "test/file", part_number := 3, end_time := 320, part := "724a0685c99b457d4ddd93814c2d3e2b" },
    { key := "test/another_file", part_number := 1, end_time := 520, part := "89d4f0341d9091aa21ddf67d3b32c34a" } ]

/-- The three upload-part jobs fed to the worker loop in the tests'
`test_worker_process_main` scenario. -/
def testJobs : List UploadJob :=
  [ UploadJob.upload_part "up" "k" "b1" 1,
    UploadJob.upload_part "up" "k" "b2" 2,
    UploadJob.upload_part "up" "k" "b3" 3 ]

/-- The job execution of the tests' `test_worker_process_main` failure
scenario: the second job raises `Boto3Error("Something is gone wrong")`,
the others succeed. -/
def testExec : UploadJob → Except String Unit
  | UploadJob.upload_part _ _ _ 2 => Except.error "Something is gone wrong"
  | _ => Except.ok ()

/-! ## Theorems -/

/-- C8: for every compression token outside `{gzip, bzip2, lz4, zstd,
snappy}` — including `None` — both the whole-buffer `compress` helper and
`decompress_to_file` fail immediately with an invalid-argument error whose
message names the offending token, and select no codec branch (no
compression work). -/
theorem compress_decompress_unknown_token_fails (c : Option String)
    (h1 : c ≠ some "gzip") (h2 : c ≠ some "bzip2") (h3 : c ≠ some "lz4")
    (h4 : c ≠ some "zstd") (h5 : c ≠ some "snappy") :
    compress c = Except.error ("Unknown compression type: " ++ pyOptStr c) ∧
    decompress_to_file c = Except.error ("Unknown compression type: " ++ pyOptStr c) := by
  constructor <;> simp [compress, decompress_to_file, h1, h2, h3, h4, h5]

/-- Witness for C8 at the unrecognized token `"xz"`. -/
theorem compress_decompress_unknown_token_fails_witness :
    compress (some "xz") = Except.error ("Unknown compression type: " ++ pyOptStr (some "xz")) ∧
    decompress_to_file (some "xz") =
      Except.error ("Unknown compression type: " ++ pyOptStr (some "xz")) :=
  compress_decompress_unknown_token_fails (some "xz")
    (by decide) (by decide) (by decide) (by decide) (by decide)

/-- C9: for every mode string `m`, `get_streaming_tar_mode` returns the
bare marker `m ++ "|"` when the compression token is `snappy`, `zstd`,
`lz4` or `None`, and returns `m ++ "|" ++ c` for every other token `c`
(in particular `gzip` and `bzip2`). -/
theorem get_streaming_tar_mode_spec (m : String) :
    get_streaming_tar_mode m none = m ++ "|" ∧
    get_streaming_tar_mode m (some "snappy") = m ++ "|" ∧
    get_streaming_tar_mode m (some "zstd") = m ++ "|" ∧
    get_streaming_tar_mode m (some "lz4") = m ++ "|" ∧
    ∀ c : String, c ≠ "snappy" → c ≠ "zstd" → c ≠ "lz4" →
      get_streaming_tar_mode m (some c) = m ++ "|" ++ c := by
  refine ⟨by simp [get_streaming_tar_mode], by simp [get_streaming_tar_mode],
    by simp [get_streaming_tar_mode], by simp [get_streaming_tar_mode], ?_⟩
  intro c hc1 hc2 hc3
  simp [get_streaming_tar_mode, hc1, hc2, hc3, pyOptStr]

/-- Witness for C9 at mode `"r"` and the tokens `None`, `"gzip"` and
`"bzip2"`. -/
theorem get_streaming_tar_mode_spec_witness :
    get_streaming_tar_mode "r" none = "r" ++ "|" ∧
    get_streaming_tar_mode "r" (some "gzip") = "r" ++ "|" ++ "gzip" ∧
    get_streaming_tar_mode "w" (some "bzip2") = "w" ++ "|" ++ "bzip2" :=
  ⟨(get_streaming_tar_mode_spec "r").1,
    (get_streaming_tar_mode_spec "r").2.2.2.2 "gzip" (by decide) (by decide) (by decide),
    (get_streaming_tar_mode_spec "w").2.2.2.2 "bzip2" (by decide) (by decide) (by decide)⟩

/-- C10: `get_compressor` yields a `ChunkedCompressor` exactly for the
tokens `snappy`, `zstd` and `lz4`; for every other token — `gzip`,
`bzip2`, `None` or any unrecognized string — it returns `None` rather
than raising. -/
theorem get_compressor_spec :
    get_compressor (some "snappy") = some ChunkedCompressorKind.snappy ∧
    get_compressor (some "zstd") = some ChunkedCompressorKind.zstd ∧
    get_compressor (some "lz4") = some ChunkedCompressorKind.lz4 ∧
    ∀ c : Option String, c ≠ some "snappy" → c ≠ some "zstd" → c ≠ some "lz4" →
      get_compressor c = none := by
  refine ⟨by simp [get_compressor], by simp [get_compressor], by simp [get_compressor], ?_⟩
  intro c h1 h2 h3
  simp [get_compressor, h1, h2, h3]

/-- Witness for C10 at the tokens `"gzip"`, `"bzip2"`, `None` and an
unrecognized string. -/
theorem get_compressor_spec_witness :
    get_compressor (some "gzip") = none ∧
    get_compressor (some "bzip2") = none ∧
    get_compressor none = none ∧
    get_compressor (some "unknown") = none :=
  ⟨get_compressor_spec.2.2.2 (some "gzip") (by decide) (by decide) (by decide),
    get_compressor_spec.2.2.2 (some "bzip2") (by decide) (by decide) (by decide),
    get_compressor_spec.2.2.2 none (by decide) (by decide) (by decide),
    get_compressor_spec.2.2.2 (some "unknown") (by decide) (by decide) (by decide)⟩

/-- Spawn actions alone are counted as spawns in a mapped spawn list. -/
theorem countP_isSpawn_map_spawn (l : List Nat) :
    (l.map Action.spawnWorker).countP isSpawn = l.length := by
  induction l with
  | nil => rfl
  | cons i rest ih => simp [List.countP_cons, isSpawn, ih]

/-- A mapped spawn list contains no channel allocations. -/
theorem countP_isAlloc_map_spawn (l : List Nat) :
    (l.map Action.spawnWorker).countP isAlloc = 0 := by
  induction l with
  | nil => rfl
  | cons i rest ih => simp [List.countP_cons, isAlloc, ih]

/-- C2: the error checkpoint behaves as a latch.  If the latch is already
set, the call returns normally with the state untouched — in particular the
error channel, whatever it holds, is not read.  If the latch is unset and
the channel holds at least one message, exactly the first message is
popped, stored as the latch value, and the call fails with it.  If the
latch is unset and the channel is empty, the call returns normally and the
latch stays unset. -/
theorem handle_async_errors_latch (st : EngineState) (e m : String) (q : List String) :
    handle_async_errors { st with error := some e } =
      ({ st with error := some e }, CheckpointOutcome.ok) ∧
    handle_async_errors { st with error := none, errors_queue := some (m :: q) } =
      ({ st with error := some m, errors_queue := some q }, CheckpointOutcome.failed m) ∧
    handle_async_errors { st with error := none, errors_queue := some [] } =
      ({ st with error := none, errors_queue := some [] }, CheckpointOutcome.ok) :=
  ⟨rfl, rfl, rfl⟩

/-- C4: `ensure_async` is idempotent.  Starting from a coordinator whose
job channel is unallocated, the first call allocates the job, result and
error channels, spawns exactly `jobs` workers (the count fixed at
construction), and a second call is a no-op performing zero channel
allocations and zero worker spawns. -/
theorem ensure_async_idempotent (st : EngineState) :
    ((ensure_async { st with queue := none }).1.queue = some [] ∧
      (ensure_async { st with queue := none }).1.result_queue = some [] ∧
      (ensure_async { st with queue := none }).1.errors_queue = some [] ∧
      (ensure_async { st with queue := none }).1.worker_processes.length = st.jobs) ∧
    (Action.allocJobChannel ∈ (ensure_async { st with queue := none }).2 ∧
      Action.allocResultChannel ∈ (ensure_async { st with queue := none }).2 ∧
      Action.allocErrorsChannel ∈ (ensure_async { st with queue := none }).2) ∧
    ((ensure_async { st with queue := none }).2.countP isSpawn = st.jobs ∧
      (ensure_async { st with queue := none }).2.countP isAlloc = 4) ∧
    ensure_async (ensure_async { st with queue := none }).1 =
      ((ensure_async { st with queue := none }).1, []) ∧
    ((ensure_async (ensure_async { st with queue := none }).1).2.countP isSpawn = 0 ∧
      (ensure_async (ensure_async { st with queue := none }).1).2.countP isAlloc = 0) := by
  refine ⟨⟨rfl, rfl, rfl, List.length_range st.jobs⟩, ⟨by simp [ensure_async],
    by simp [ensure_async], by simp [ensure_async]⟩, ⟨?_, ?_⟩, rfl, rfl, rfl⟩
  · show (([Action.allocJobChannel, Action.allocResultChannel, Action.allocErrorsChannel,
      Action.allocDoneChannel] ++ (List.range st.jobs).map Action.spawnWorker).countP isSpawn)
      = st.jobs
    rw [List.countP_append, countP_isSpawn_map_spawn, List.length_range]
    simp [List.countP_cons, isSpawn]
  · show (([Action.allocJobChannel, Action.allocResultChannel, Action.allocErrorsChannel,
      Action.allocDoneChannel] ++ (List.range st.jobs).map Action.spawnWorker).countP isAlloc)
      = 4
    rw [List.countP_append, countP_isAlloc_map_spawn]
    simp [List.countP_cons, isAlloc]

/-- C6: calling `executeJob` directly with a job whose kind is neither
`UploadPart` nor `CompleteMultipartUpload` raises an invalid-operation
failure synchronously, with no write to the result, completion or error
channel and no provider call. -/
theorem worker_process_execute_job_unknown (provider_part : String → String → Nat → String)
    (now : Nat) (t : String) :
    worker_process_execute_job provider_part now (UploadJob.other t) =
      ([], some ("Unknown job type: " ++ t)) ∧
    (worker_process_execute_job provider_part now (UploadJob.other t)).1.countP
      isChannelWrite = 0 ∧
    (worker_process_execute_job provider_part now (UploadJob.other t)).1.countP
      isProviderCall = 0 :=
  ⟨rfl, rfl, rfl⟩

/-- Startup never enqueues a job: the trace of `ensure_async` holds only
allocations and spawns. -/
theorem enqueue_not_mem_ensure_async (st : EngineState) (j : UploadJob) :
    Action.enqueue j ∉ (ensure_async st).2 := by
  unfold ensure_async
  split
  · simp
  · simp

/-- A checkpoint is part of every startup-plus-checkpoint trace. -/
theorem checkpoint_mem_append_checkpoint (l : List Action) :
    Action.checkpoint ∈ l ++ [Action.checkpoint] := by
  simp

/-- C3: every call to `dispatchUploadPart` invokes the error checkpoint,
and every job it enqueues is an `UploadPart` job referencing the path of
the temporary file written with the body bytes — never the raw payload —
with a checkpoint strictly before and strictly after the enqueue in the
call's action trace. -/
theorem async_upload_part_contract (st : EngineState) (upload_metadata key : String)
    (body : List Nat) (pn : Nat) (tmp : String) :
    Action.checkpoint ∈ (async_upload_part st upload_metadata key body pn tmp).2.1 ∧
    ∀ j, Action.enqueue j ∈ (async_upload_part st upload_metadata key body pn tmp).2.1 →
      j = UploadJob.upload_part upload_metadata key tmp pn ∧
      Action.writeTempFile tmp body ∈ (async_upload_part st upload_metadata key body pn tmp).2.1 ∧
      ∃ pre post,
        (async_upload_part st upload_metadata key body pn tmp).2.1 =
          pre ++ Action.enqueue j :: post ∧
        Action.checkpoint ∈ pre ∧ Action.checkpoint ∈ post := by
  rcases hout : (handle_async_errors (ensure_async st).1).2 with _ | e
  · -- checkpoint passed: the job is enqueued between two checkpoints
    have htr : (async_upload_part st upload_metadata key body pn tmp).2.1 =
        (ensure_async st).2 ++ [Action.checkpoint, Action.writeTempFile tmp body,
          Action.enqueue (UploadJob.upload_part upload_metadata key tmp pn),
          Action.checkpoint] := by
      simp only [async_upload_part, hout]
    rw [htr]
    refine ⟨by simp, ?_⟩
    intro j hj
    have hj' : j = UploadJob.upload_part upload_metadata key tmp pn := by
      rcases List.mem_append.mp hj with h | h
      · exact absurd h (enqueue_not_mem_ensure_async st j)
      · simp at h
        exact h
    refine ⟨hj', by simp,
      (ensure_async st).2 ++ [Action.checkpoint, Action.writeTempFile tmp body],
      [Action.checkpoint], ?_, by simp, by simp⟩
    rw [hj']
    simp
  · -- first checkpoint failed: nothing is written or enqueued
    have htr : (async_upload_part st upload_metadata key body pn tmp).2.1 =
        (ensure_async st).2 ++ [Action.checkpoint] := by
      simp only [async_upload_part, hout]
    rw [htr]
    refine ⟨by simp, ?_⟩
    intro j hj
    exfalso
    rcases List.mem_append.mp hj with h | h
    · exact enqueue_not_mem_ensure_async st j h
    · simp at h

/-- Witness for C3: dispatching part 1 of `test/key` from a fresh
two-worker coordinator enqueues the job referencing the temp file
`tmp_file`, with a checkpoint on either side. -/
theorem async_upload_part_contract_witness :
    Action.enqueue (UploadJob.upload_part "up" "test/key" "tmp_file" 1) ∈
      (async_upload_part (newInterface 2) "up" "test/key" [116, 101] 1 "tmp_file").2.1 ∧
    Action.writeTempFile "tmp_file" [116, 101] ∈
      (async_upload_part (newInterface 2) "up" "test/key" [116, 101] 1 "tmp_file").2.1 ∧
    ∃ pre post,
      (async_upload_part (newInterface 2) "up" "test/key" [116, 101] 1 "tmp_file").2.1 =
        pre ++ Action.enqueue (UploadJob.upload_part "up" "test/key" "tmp_file" 1) :: post ∧
      Action.checkpoint ∈ pre ∧ Action.checkpoint ∈ post :=
  have hmem : Action.enqueue (UploadJob.upload_part "up" "test/key" "tmp_file" 1) ∈
      (async_upload_part (newInterface 2) "up" "test/key" [116, 101] 1 "tmp_file").2.1 := by
    decide
  have h := (async_upload_part_contract (newInterface 2) "up" "test/key" [116, 101] 1
    "tmp_file").2 (UploadJob.upload_part "up" "test/key" "tmp_file" 1) hmem
  ⟨hmem, h.2.1, h.2.2⟩

/-- C5: for any job execution behaviour, a worker loop fed K jobs and the
stop sentinel performs K+1 channel receives, K executions and K+1
acknowledgments, and whenever executing a job raises, the raised message is
posted verbatim on the error channel — the failing job is still
acknowledged and the loop continues through the remaining jobs. -/
theorem worker_process_main_contract (exec : UploadJob → Except String Unit)
    (js : List UploadJob) :
    (worker_process_main exec (js.map some ++ [none])).countP isGet = js.length + 1 ∧
    (worker_process_main exec (js.map some ++ [none])).countP isExecuteAct = js.length ∧
    (worker_process_main exec (js.map some ++ [none])).countP isTaskDone = js.length + 1 ∧
    ∀ j ∈ js, ∀ e, exec j = Except.error e →
      Action.postError e ∈ worker_process_main exec (js.map some ++ [none]) := by
  induction js with
  | nil =>
      refine ⟨rfl, rfl, rfl, ?_⟩
      intro j hj
      simp at hj
  | cons j rest ih =>
      rcases hx : exec j with e | u
      · -- executing j raises e: the message is posted, the job acknowledged
        have hmain : worker_process_main exec ((j :: rest).map some ++ [none]) =
            Action.get :: Action.execute j :: Action.postError e :: Action.taskDone ::
              worker_process_main exec (rest.map some ++ [none]) := by
          simp [worker_process_main, hx]
        refine ⟨?_, ?_, ?_, ?_⟩
        · rw [hmain]
          simp [List.countP_cons, isGet, isExecuteAct, isTaskDone, ih.1]
        · rw [hmain]
          simp [List.countP_cons, isGet, isExecuteAct, isTaskDone, ih.2.1]
        · rw [hmain]
          simp [List.countP_cons, isGet, isExecuteAct, isTaskDone, ih.2.2.1]
        · intro j' hj' e' he'
          rw [hmain]
          rcases List.mem_cons.mp hj' with h | h
          · subst h
            rw [hx] at he'
            simp at he'
            subst he'
            simp
          · have hrec := ih.2.2.2 j' h e' he'
            simp [hrec]
      · -- executing j succeeds: no error posted for it
        have hmain : worker_process_main exec ((j :: rest).map some ++ [none]) =
            Action.get :: Action.execute j :: Action.taskDone ::
              worker_process_main exec (rest.map some ++ [none]) := by
          simp [worker_process_main, hx]
        refine ⟨?_, ?_, ?_, ?_⟩
        · rw [hmain]
          simp [List.countP_cons, isGet, isExecuteAct, isTaskDone, ih.1]
        · rw [hmain]
          simp [List.countP_cons, isGet, isExecuteAct, isTaskDone, ih.2.1]
        · rw [hmain]
          simp [List.countP_cons, isGet, isExecuteAct, isTaskDone, ih.2.2.1]
        · intro j' hj' e' he'
          rw [hmain]
          rcases List.mem_cons.mp hj' with h | h
          · subst h
            rw [hx] at he'
            simp at he'
          · have hrec := ih.2.2.2 j' h e' he'
            simp [hrec]

/-- Witness for C5: the tests' scenario — three jobs then the sentinel,
with the second job raising `"Something is gone wrong"` — yields 4
receives, 3 executions, 4 acknowledgments and the message verbatim on the
error channel. -/
theorem worker_process_main_contract_witness :
    (worker_process_main testExec (testJobs.map some ++ [none])).countP isGet = 4 ∧
    (worker_process_main testExec (testJobs.map some ++ [none])).countP isExecuteAct = 3 ∧
    (worker_process_main testExec (testJobs.map some ++ [none])).countP isTaskDone = 4 ∧
    Action.postError "Something is gone wrong" ∈
      worker_process_main testExec (testJobs.map some ++ [none]) :=
  have h := worker_process_main_contract testExec testJobs
  ⟨h.1, h.2.1, h.2.2.1,
    h.2.2.2 (UploadJob.upload_part "up" "k" "b2" 2) (by decide)
      "Something is gone wrong" rfl⟩

/-- Draining results never touches the job channel. -/
theorem foldl_drainOne_queue (rs : List PartResult) (st : EngineState) :
    (rs.foldl drainOne st).queue = st.queue := by
  induction rs generalizing st with
  | nil => rfl
  | cons r rest ih => rw [List.foldl_cons, ih]; rfl

/-- Draining results never touches the error latch. -/
theorem foldl_drainOne_error (rs : List PartResult) (st : EngineState) :
    (rs.foldl drainOne st).error = st.error := by
  induction rs generalizing st with
  | nil => rfl
  | cons r rest ih => rw [List.foldl_cons, ih]; rfl

/-- Draining results never touches the error channel. -/
theorem foldl_drainOne_errors_queue (rs : List PartResult) (st : EngineState) :
    (rs.foldl drainOne st).errors_queue = st.errors_queue := by
  induction rs generalizing st with
  | nil => rfl
  | cons r rest ih => rw [List.foldl_cons, ih]; rfl

/-- C7: with the pool started and no pending error, `completeMultipartUpload`
calls `retrieveResults` exactly once before dispatching, and the parts
manifest of the dispatched `CompleteMultipartUpload` job — both in the
trace and in the job actually placed on the job channel — is exactly the
ledger sequence for the key as it stands after that drain. -/
theorem async_complete_multipart_upload_manifest (st : EngineState)
    (upload_metadata key : String) (q : List UploadJob) (rs : List PartResult) :
    (async_complete_multipart_upload (startedState st q rs) upload_metadata key).2.1 =
      [Action.checkpoint, Action.retrieveResultsCall,
        Action.enqueue (UploadJob.complete_multipart_upload upload_metadata key
          ((retrieve_results (startedState st q rs)).parts_db key)),
        Action.checkpoint] ∧
    ((async_complete_multipart_upload (startedState st q rs)
        upload_metadata key).2.1.countP isRetrieveCall = 1) ∧
    (async_complete_multipart_upload (startedState st q rs) upload_metadata key).1.queue =
      some (q ++ [UploadJob.complete_multipart_upload upload_metadata key
        ((retrieve_results (startedState st q rs)).parts_db key)]) := by
  refine ⟨rfl, rfl, ?_⟩
  simp only [async_complete_multipart_upload, ensure_async, handle_async_errors,
    retrieve_results, startedState]
  simp [foldl_drainOne_queue, foldl_drainOne_error, foldl_drainOne_errors_queue]

/-- Sorted insertion is a permutation of pushing the entry on the front. -/
theorem insertPart_perm (e : PartEntry) (l : List PartEntry) :
    (insertPart e l).Perm (e :: l) := by
  induction l with
  | nil => exact List.Perm.refl _
  | cons f rest ih =>
      unfold insertPart
      split
      · exact List.Perm.refl _
      · exact (ih.cons f).trans (List.Perm.swap e f rest)

/-- Sorted insertion keeps the ledger sequence sorted ascending by part
number. -/
theorem insertPart_pairwise (e : PartEntry) (l : List PartEntry)
    (h : l.Pairwise (fun a b : PartEntry => a.1 ≤ b.1)) :
    (insertPart e l).Pairwise (fun a b : PartEntry => a.1 ≤ b.1) := by
  induction l with
  | nil => simp [insertPart]
  | cons f rest ih =>
      rw [List.pairwise_cons] at h
      unfold insertPart
      split
      · rename_i hle
        rw [List.pairwise_cons]
        refine ⟨?_, List.pairwise_cons.mpr h⟩
        intro b hb
        rcases List.mem_cons.mp hb with hb | hb
        · rw [hb]
          exact hle
        · exact le_trans hle (h.1 b hb)
      · rename_i hgt
        rw [List.pairwise_cons]
        refine ⟨?_, ih h.2⟩
        intro b hb
        have hb' := (insertPart_perm e rest).mem_iff.mp hb
        rcases List.mem_cons.mp hb' with hb' | hb'
        · rw [hb']
          exact le_of_not_le hgt
        · exact h.1 b hb'

/-- Folding sorted insertions over a batch of entries permutes the batch
onto the existing ledger sequence. -/
theorem foldl_insertPart_perm (es l : List PartEntry) :
    (es.foldl (fun acc e => insertPart e acc) l).Perm (es ++ l) := by
  induction es generalizing l with
  | nil => exact List.Perm.refl _
  | cons e rest ih =>
      rw [List.foldl_cons]
      exact ((ih (insertPart e l)).trans
        (List.Perm.append_left rest (insertPart_perm e l))).trans
        List.perm_middle

/-- Folding sorted insertions over a batch of entries keeps the ledger
sequence sorted ascending by part number. -/
theorem foldl_insertPart_pairwise (es l : List PartEntry)
    (h : l.Pairwise (fun a b : PartEntry => a.1 ≤ b.1)) :
    (es.foldl (fun acc e => insertPart e acc) l).Pairwise
      (fun a b : PartEntry => a.1 ≤ b.1) := by
  induction es generalizing l with
  | nil => exact h
  | cons e rest ih =>
      rw [List.foldl_cons]
      exact ih _ (insertPart_pairwise e l h)

/-- The drain localizes per key: after folding the drained results over the
state, the ledger sequence of key `k` is the fold of sorted insertions of
exactly the results posted for `k`, in arrival order, over the previous
sequence. -/
theorem foldl_drainOne_parts_db (rs : List PartResult) (st : EngineState) (k : String) :
    (rs.foldl drainOne st).parts_db k =
      ((rs.filter (fun r => r.key = k)).map (fun r => (r.part_number, r.part))).foldl
        (fun acc e => insertPart e acc) (st.parts_db k) := by
  induction rs generalizing st with
  | nil => rfl
  | cons r rest ih =>
      rw [List.foldl_cons, ih]
      by_cases hk : r.key = k
      · subst hk
        simp [drainOne, List.filter_cons]
      · have hk' : ¬(k = r.key) := fun h => hk h.symm
        simp [drainOne, List.filter_cons, hk, hk']

/-- A sorted sequence with pairwise-distinct part numbers is strictly
ascending. -/
theorem pairwise_lt_of_le_nodup (l : List PartEntry)
    (h1 : l.Pairwise (fun a b : PartEntry => a.1 ≤ b.1))
    (h2 : (l.map Prod.fst).Nodup) :
    l.Pairwise (fun a b : PartEntry => a.1 < b.1) := by
  have h2' : l.Pairwise (fun a b : PartEntry => a.1 ≠ b.1) :=
    (List.pairwise_map.mp h2)
  exact (h1.and h2').imp (fun hab => lt_of_le_of_ne hab.1 hab.2)

/-- C1: for every sequence of part results drained from the result channel,
in whatever arrival order, provided each key's posted part numbers are
distinct (the engine's per-key uniqueness invariant), after
`retrieveResults` returns the ledger entry for each key is exactly the
posted part descriptors for that key, sorted strictly ascending by part
number. -/
theorem retrieve_results_sorted (jobs : Nat) (rs : List PartResult) (k : String)
    (hnd : ((rs.filter (fun r => r.key = k)).map PartResult.part_number).Nodup) :
    ((retrieve_results { newInterface jobs with result_queue := some rs }).parts_db
        k).Pairwise (fun a b : PartEntry => a.1 < b.1) ∧
    ((retrieve_results { newInterface jobs with result_queue := some rs }).parts_db
        k).Perm ((rs.filter (fun r => r.key = k)).map (fun r => (r.part_number, r.part))) := by
  have hdb : (retrieve_results { newInterface jobs with result_queue := some rs }).parts_db k
      = ((rs.filter (fun r => r.key = k)).map (fun r => (r.part_number, r.part))).foldl
        (fun acc e => insertPart e acc) [] := by
    show (rs.foldl drainOne { newInterface jobs with result_queue := some rs }).parts_db k = _
    rw [foldl_drainOne_parts_db]
    rfl
  have hperm : ((retrieve_results
      { newInterface jobs with result_queue := some rs }).parts_db k).Perm
      ((rs.filter (fun r => r.key = k)).map (fun r => (r.part_number, r.part))) := by
    rw [hdb]
    have := foldl_insertPart_perm
      ((rs.filter (fun r => r.key = k)).map (fun r => (r.part_number, r.part))) []
    rwa [List.append_nil] at this
  refine ⟨?_, hperm⟩
  have hle : ((retrieve_results { newInterface jobs with result_queue := some rs }).parts_db
      k).Pairwise (fun a b : PartEntry => a.1 ≤ b.1) := by
    rw [hdb]
    exact foldl_insertPart_pairwise _ [] (List.Pairwise.nil)
  refine pairwise_lt_of_le_nodup _ hle ?_
  have hmap : (((rs.filter (fun r => r.key = k)).map
      (fun r => (r.part_number, r.part))).map Prod.fst).Nodup := by
    rw [List.map_map]
    exact hnd
  exact (hperm.map Prod.fst).nodup_iff.mpr hmap

/-- Witness for C1 at the tests' `test_retrieve_results` scenario: parts of
`test/file` posted in the order 2, 1, 3 end up strictly ascending and are a
permutation of the posted descriptors. -/
theorem retrieve_results_sorted_witness :
    ((testResults.filter (fun r => r.key = "test/file")).map PartResult.part_number).Nodup ∧
    (((retrieve_results { newInterface 0 with result_queue := some testResults }).parts_db
        "test/file").Pairwise (fun a b : PartEntry => a.1 < b.1) ∧
      ((retrieve_results { newInterface 0 with result_queue := some testResults }).parts_db
        "test/file").Perm ((testResults.filter (fun r => r.key = "test/file")).map
          (fun r => (r.part_number, r.part)))) :=
  ⟨by decide, retrieve_results_sorted 0 testResults "test/file" (by decide)⟩

end Barman
